import Mathlib

/-!
Verification of the cabbage RESP2 proxy core
(crates/cabbage/src/{proxy,service,middleware}.rs) via a shallow
embedding.  Bytes payloads are modelled as Lean strings, i64 integers as
Int, tokio mpsc channels as explicit bounded-queue states, and each
background task (the backend worker of service.rs and the forwarder of
proxy.rs) as an explicit step function over a state record, driven by a
list of events chosen by the environment or scheduler.
-/

/-- RESP2 frame value (redis_protocol resp2 BytesFrame): scalar, bulk
string, or ordered sequence of frames.  Byte payloads are modelled as
strings; Integer is the decoded i64 value (no arithmetic is performed on
it anywhere in the proxy, so Int is a faithful model). -/
inductive BytesFrame where
  | SimpleString (data : String)
  | Error (data : String)
  | Integer (data : Int)
  | BulkString (data : String)
  | Array (data : List BytesFrame)
  | Null
deriving Repr

mutual

/-- Structural equality on frames, the model of the derived PartialEq on
BytesFrame used by middleware.rs (req == *DOC_REQUEST). -/
def BytesFrame.beq : BytesFrame → BytesFrame → Bool
  | .SimpleString a, .SimpleString b => a == b
  | .Error a, .Error b => a == b
  | .Integer a, .Integer b => a == b
  | .BulkString a, .BulkString b => a == b
  | .Array a, .Array b => BytesFrame.beqList a b
  | .Null, .Null => true
  | _, _ => false

/-- Elementwise frame equality on lists (PartialEq on Vec). -/
def BytesFrame.beqList : List BytesFrame → List BytesFrame → Bool
  | [], [] => true
  | a :: as, b :: bs => BytesFrame.beq a b && BytesFrame.beqList as bs
  | _, _ => false

end

instance : BEq BytesFrame := ⟨BytesFrame.beq⟩

mutual

theorem BytesFrame.beq_iff : ∀ a b : BytesFrame, BytesFrame.beq a b = true ↔ a = b
  | .SimpleString a, .SimpleString b => by simp [BytesFrame.beq]
  | .Error a, .Error b => by simp [BytesFrame.beq]
  | .Integer a, .Integer b => by simp [BytesFrame.beq]
  | .BulkString a, .BulkString b => by simp [BytesFrame.beq]
  | .Array a, .Array b => by
      simpa [BytesFrame.beq] using BytesFrame.beqList_iff a b
  | .Null, .Null => by simp [BytesFrame.beq]
  | .SimpleString _, .Error _ => by simp [BytesFrame.beq]
  | .SimpleString _, .Integer _ => by simp [BytesFrame.beq]
  | .SimpleString _, .BulkString _ => by simp [BytesFrame.beq]
  | .SimpleString _, .Array _ => by simp [BytesFrame.beq]
  | .SimpleString _, .Null => by simp [BytesFrame.beq]
  | .Error _, .SimpleString _ => by simp [BytesFrame.beq]
  | .Error _, .Integer _ => by simp [BytesFrame.beq]
  | .Error _, .BulkString _ => by simp [BytesFrame.beq]
  | .Error _, .Array _ => by simp [BytesFrame.beq]
  | .Error _, .Null => by simp [BytesFrame.beq]
  | .Integer _, .SimpleString _ => by simp [BytesFrame.beq]
  | .Integer _, .Error _ => by simp [BytesFrame.beq]
  | .Integer _, .BulkString _ => by simp [BytesFrame.beq]
  | .Integer _, .Array _ => by simp [BytesFrame.beq]
  | .Integer _, .Null => by simp [BytesFrame.beq]
  | .BulkString _, .SimpleString _ => by simp [BytesFrame.beq]
  | .BulkString _, .Error _ => by simp [BytesFrame.beq]
  | .BulkString _, .Integer _ => by simp [BytesFrame.beq]
  | .BulkString _, .Array _ => by simp [BytesFrame.beq]
  | .BulkString _, .Null => by simp [BytesFrame.beq]
  | .Array _, .SimpleString _ => by simp [BytesFrame.beq]
  | .Array _, .Error _ => by simp [BytesFrame.beq]
  | .Array _, .Integer _ => by simp [BytesFrame.beq]
  | .Array _, .BulkString _ => by simp [BytesFrame.beq]
  | .Array _, .Null => by simp [BytesFrame.beq]
  | .Null, .SimpleString _ => by simp [BytesFrame.beq]
  | .Null, .Error _ => by simp [BytesFrame.beq]
  | .Null, .Integer _ => by simp [BytesFrame.beq]
  | .Null, .BulkString _ => by simp [BytesFrame.beq]
  | .Null, .Array _ => by simp [BytesFrame.beq]

theorem BytesFrame.beqList_iff :
    ∀ as bs : List BytesFrame, BytesFrame.beqList as bs = true ↔ as = bs
  | [], [] => by simp [BytesFrame.beqList]
  | a :: as, b :: bs => by
      simp [BytesFrame.beqList, BytesFrame.beq_iff a b, BytesFrame.beqList_iff as bs]
  | [], _ :: _ => by simp [BytesFrame.beqList]
  | _ :: _, [] => by simp [BytesFrame.beqList]

end

instance : DecidableEq BytesFrame := fun a b =>
  decidable_of_iff (BytesFrame.beq a b = true) (BytesFrame.beq_iff a b)

/-- Levels of the log macros used by the proxy (log::info!, log::warn!,
log::error!). -/
inductive LogLevel where
  | info
  | warn
  | error
deriving DecidableEq, Repr

/-- One log line emitted with the log crate: level plus the static part
of the format string (payload arguments are tracked separately where a
claim needs them). -/
structure LogEvent where
  level : LogLevel
  msg : String
deriving DecidableEq, Repr

/-! ## proxy.rs: bound on the response-stream channel -/

/-- proxy.rs MAX_OUTSTANDING_RESPONSE_STREAMS: capacity of the channel
of response streams feeding the forwarder task. -/
def MAX_OUTSTANDING_RESPONSE_STREAMS : Nat := 100

/-!
## proxy.rs: the forwarder task of handle_connection

The forwarder task owns the client write half and a bounded channel of
response streams.  A response stream is modelled as the list of frames
it yields, in order; the channel content as the list of streams in
enqueue order.  Each client_sink.send is fallible: sinkOk gives the
outcome of the i-th write attempt, i being the number of frames already
written; a failed write makes the forwarder log and return at once,
abandoning the rest of the current stream and every remaining one.
-/

/-- Inner while loop of the forwarder task (proxy.rs lines 66-71):
drain one response stream, appending every frame it yields, in order,
to the frames already written to the client sink, until a
client_sink.send fails, which aborts the forwarder (the Bool result is
true exactly on that early return; the failed frame is not written). -/
def drainStream (sinkOk : Nat → Bool) :
    List BytesFrame → List BytesFrame → List BytesFrame × Bool
  | written, [] => (written, false)
  | written, f :: rest =>
      if sinkOk written.length then drainStream sinkOk (written ++ [f]) rest
      else (written, true)

/-- Outer while loop of the forwarder task (proxy.rs lines 64-72):
receive the next response stream from the channel and fully drain it
before receiving the next one, returning early if a client write fails
during a drain.  Returns all frames written to the client sink, in
order, and whether the task returned through the write-failure path. -/
def forwarderTask (sinkOk : Nat → Bool) :
    List BytesFrame → List (List BytesFrame) → List BytesFrame × Bool
  | written, [] => (written, false)
  | written, s :: rest =>
      match drainStream sinkOk written s with
      | (w2, false) => forwarderTask sinkOk w2 rest
      | (w2, true) => (w2, true)

/-! ## proxy.rs: the client-read loop of handle_connection -/

/-- One item produced by the client read half: a decoded frame
(Ok case) or a transport or decode error (Err case).  End of stream is
the end of the event list. -/
inductive ClientRead where
  | frame (f : BytesFrame)
  | readErr
deriving Repr

/-- The pipeline stage seen by handle_connection: submitting a frame
either returns the response stream (modelled as the frames it will
yield) or fails with an error message. -/
def PipelineService := BytesFrame → Except String (List BytesFrame)

/-- How the client-read loop of handle_connection ended: the client
read half ended cleanly, a client read errored (break at proxy.rs line
93), or the push of a response stream onto the forwarder channel failed
because the forwarder task had already returned (break at proxy.rs line
83). -/
inductive LoopExit where
  | endOfStream
  | readError
  | forwarderGone
deriving DecidableEq, Repr

/-- Client-read loop of handle_connection (proxy.rs lines 75-96).
pushOk gives the outcome of the i-th push of a response stream onto the
forwarder channel (it fails exactly when the forwarder task has already
returned); the Nat argument counts the pushes made so far.  Returns the
response streams pushed in order, the error log lines emitted, and how
the loop exited.  On a submit failure the error is logged and the loop
continues; on a failed push the stream is lost, the failure is logged
and the loop breaks; on a read error the loop breaks. -/
def clientLoop (service : PipelineService) (pushOk : Nat → Bool) :
    List ClientRead → Nat → List (List BytesFrame) × List LogEvent × LoopExit
  | [], _ => ([], [], .endOfStream)
  | .frame f :: rest, pushed =>
      match service f with
      | .ok stream =>
          if pushOk pushed then
            let (streams, logs, ex) := clientLoop service pushOk rest (pushed + 1)
            (stream :: streams, logs, ex)
          else
            ([], [⟨.error, "Failed to send response stream to handler"⟩],
             .forwarderGone)
      | .error _ =>
          let (streams, logs, ex) := clientLoop service pushOk rest pushed
          (streams, ⟨.error, "Failed to send command to backend"⟩ :: logs, ex)
  | .readErr :: _, _ => ([], [⟨.error, "Error reading from client"⟩], .readError)

/-- handle_connection (proxy.rs lines 47-105) as observed at the client
socket: run the read loop, then drop the forwarder channel sender and
await the forwarder task over the streams that were pushed.  Returns
the frames actually written to the client, the error logs of the read
loop, and how the loop exited. -/
def handle_connection (service : PipelineService) (sinkOk pushOk : Nat → Bool)
    (reads : List ClientRead) : List BytesFrame × List LogEvent × LoopExit :=
  let (streams, logs, ex) := clientLoop service pushOk reads 0
  ((forwarderTask sinkOk [] streams).1, logs, ex)

/-! ## service.rs: channel capacities -/

/-- service.rs line 17: capacity of the per-request response channel. -/
def MAX_OUTSTANDING_RESPONSE_STREAM_MESSAGES : Nat := 100

/-- service.rs line 18: capacity of the inbound request queue. -/
def MAX_OUTSTANDING_REQUEST_MESSAGES : Nat := 100

/-!
## service.rs: the sender side of a bounded tokio mpsc channel

Only what Resp2Backend.call observes of the channel is modelled: its
capacity, how many messages are currently buffered, and whether the
receiving end has been dropped.
-/

/-- Sender-side view of a bounded mpsc channel. -/
structure MpscSendState where
  capacity : Nat
  queued : Nat
  receiverDropped : Bool
deriving DecidableEq, Repr

/-- What sender.send(msg).await does: fails if the receiving end has
been dropped, suspends (without error) while the buffer is full, and
otherwise enqueues the message. -/
inductive SendOutcome where
  | sent
  | suspended
  | closed
deriving DecidableEq, Repr

/-- Outcome of one send attempt on a bounded mpsc channel. -/
def mpscSend (q : MpscSendState) : SendOutcome :=
  if q.receiverDropped then .closed
  else if q.queued < q.capacity then .sent
  else .suspended

/-! ## service.rs: Resp2Backend handle (poll_ready and call) -/

/-- Resp2Backend.poll_ready (service.rs lines 67-73): errors once the
liveness flag backend_running reads false, otherwise ready. -/
def poll_ready (backend_running : Bool) : Except String Unit :=
  if !backend_running then .error "Backend task has died"
  else .ok ()

/-- Result of Resp2Backend.call as observed by the caller. -/
inductive CallOutcome where
  /-- The send onto the request queue failed: bail with an error. -/
  | failed (msg : String)
  /-- The request queue is full: the caller is suspended inside
  send().await, with no error produced. -/
  | suspendedOnQueue
  /-- The request was enqueued; the caller gets back a ReceiverStream
  over a fresh bounded response channel of the given capacity. -/
  | stream (responseCapacity : Nat)
deriving DecidableEq, Repr

/-- Resp2Backend.call (service.rs lines 75-94): create a response
channel of capacity MAX_OUTSTANDING_RESPONSE_STREAM_MESSAGES, send the
request message onto the inbound queue (bailing only when that send
fails because the receiver is gone), and return the receiver stream. -/
def call (requestQueue : MpscSendState) (_req : BytesFrame) : CallOutcome :=
  match mpscSend requestQueue with
  | .closed => .failed "Failed to send request to handler"
  | .suspended => .suspendedOnQueue
  | .sent => .stream MAX_OUTSTANDING_RESPONSE_STREAM_MESSAGES

/-!
## service.rs: the backend_task worker

The worker is a single task multiplexing, via tokio select, the inbound
request queue against the backend read half.  It is modelled as a step
function on an explicit state, driven by events: each event is one
completed arm of the select (or the outcome of the write performed
inside the request arm).  Response channels are identified by numeric
ids; delivered records every frame the worker sent into a response
channel, paired with that channel id.
-/

/-- One completed iteration of the select loop in backend_task. -/
inductive WorkerEvent where
  /-- request_receiver.recv() yielded a Request message carrying this
  frame and response channel; writeOk tells whether the subsequent
  sender.send(frame).await on the backend transport succeeded. -/
  | recvRequest (frame : BytesFrame) (chan : Nat) (writeOk : Bool)
  /-- request_receiver.recv() yielded a Close message. -/
  | recvClose
  /-- request_receiver.recv() returned None: all handles dropped. -/
  | queueClosed
  /-- The backend read half yielded Some(Ok(frame)); receiverOpen tells
  whether the receiving end of the current response channel (if any) is
  still alive, i.e. whether sending into it succeeds. -/
  | backendFrame (frame : BytesFrame) (receiverOpen : Bool)
  /-- The backend read half yielded Some(Err(e)). -/
  | backendErr
  /-- The backend read half yielded None: end of stream. -/
  | backendEOF
deriving Repr

/-- State of the backend_task worker, together with the cumulative
observations a claim can mention.  delivered is the log of frames
pushed into response channels (channel id paired with the frame);
backendWritten the frames written to the backend transport; dropped the
stray frames discarded for lack of a current channel. -/
structure WorkerState where
  current_response_sender : Option Nat
  backend_running : Bool
  terminated : Bool
  backendWritten : List BytesFrame
  delivered : List (Nat × BytesFrame)
  dropped : List BytesFrame
  logs : List LogEvent
deriving Repr

/-- Worker state right after backend_task stores true into
backend_running (service.rs line 107) and enters the loop. -/
def initWorker : WorkerState :=
  { current_response_sender := none
    backend_running := true
    terminated := false
    backendWritten := []
    delivered := []
    dropped := []
    logs := [] }

/-- Mark the worker loop as exited: every break lands after the loop at
service.rs line 158, which stores false into backend_running; returning
from the task then drops request_receiver and the current response
sender. -/
def terminateWorker (s : WorkerState) : WorkerState :=
  { s with backend_running := false, terminated := true }

/-- One iteration of the select loop of backend_task (service.rs lines
109-156).  A terminated worker takes no further steps. -/
def backendTaskStep (s : WorkerState) (e : WorkerEvent) : WorkerState :=
  if s.terminated then s
  else
    match e with
    | .recvRequest frame chan writeOk =>
        let s1 := { s with current_response_sender := some chan }
        if writeOk then { s1 with backendWritten := s1.backendWritten ++ [frame] }
        else terminateWorker
          { s1 with logs := s1.logs ++ [⟨.error, "Failed to send request to target"⟩] }
    | .recvClose => terminateWorker s
    | .queueClosed => terminateWorker
        { s with logs := s.logs ++
            [⟨.info, "Request channel closed, shutting down connection handler"⟩] }
    | .backendFrame frame receiverOpen =>
        match s.current_response_sender with
        | some chan =>
            if receiverOpen then { s with delivered := s.delivered ++ [(chan, frame)] }
            else { s with current_response_sender := none }
        | none =>
            { s with
                logs := s.logs ++
                  [⟨.error, "Response received without a known request to associate"⟩]
                dropped := s.dropped ++ [frame] }
    | .backendErr => terminateWorker
        { s with logs := s.logs ++ [⟨.error, "Error reading response from target"⟩] }
    | .backendEOF => terminateWorker
        { s with logs := s.logs ++ [⟨.info, "Target connection closed"⟩] }

/-- Run the worker over a list of select-loop events. -/
def runWorker (s : WorkerState) (evs : List WorkerEvent) : WorkerState :=
  evs.foldl backendTaskStep s

/-- The inbound request queue as the Resp2Backend handle sees it while
the worker is in the state s: backend_task returning drops
request_receiver, so the receiving end is gone exactly when the worker
loop has exited. -/
def queueOfWorker (s : WorkerState) (queued : Nat) : MpscSendState :=
  { capacity := MAX_OUTSTANDING_REQUEST_MESSAGES
    queued := queued
    receiverDropped := s.terminated }

/-- Number of response-channel senders held by the worker: the code
keeps them in the single Option-typed variable
current_response_sender. -/
def activeChannels (s : WorkerState) : Nat :=
  s.current_response_sender.toList.length

/-!
## middleware.rs: the ProxyLogger decorator

ProxyLogger.call logs the outbound frame, delegates to the inner stage,
and wraps the returned stream with futures inspect, which logs each
response frame lazily at the moment it is yielded downstream.  The
wrapped stream is modelled as the list of frames paired with the log
line emitted when that frame is yielded; draining k frames of the
wrapped stream is taking k elements of that list, so a frame not yet
demanded has produced no log line.
-/

/-- middleware.rs lines 18-23: the introspection-document request,
the array of bulk strings COMMAND and DOCS. -/
def DOC_REQUEST : BytesFrame :=
  .Array [.BulkString "COMMAND", .BulkString "DOCS"]

/-- One structured proxy log line of middleware.rs: direction tag,
connection id, per-direction counter value, per-request command id, and
the logged payload: some frame when the frame is rendered into the
line, none when the fixed placeholder string docs replaces it. -/
structure ProxyLogLine where
  outbound : Bool
  conn : String
  num : Nat
  cmd : String
  payload : Option BytesFrame
deriving DecidableEq, Repr

/-- State of a ProxyLogger decorator instance (middleware.rs lines
42-47): connection id, per-connection request counter, and the shared
atomic response counter. -/
structure ProxyLogger where
  connection_id : String
  request_count : Nat
  response_count : Nat
deriving DecidableEq, Repr

/-- The inspect closure of ProxyLogger.call (middleware.rs lines
95-114) applied lazily along the inner stream: pairs every frame, in
order, with the inbound log line emitted when that frame passes
through, threading the shared response counter (fetch_add of one per
frame, logged value is the incremented counter).  When is_doc_command
holds, the payload is replaced by the placeholder (none); otherwise the
frame itself is rendered. -/
def inspectFrames (is_doc_command : Bool) (conn cmd : String) :
    Nat → List BytesFrame → List (BytesFrame × ProxyLogLine)
  | _, [] => []
  | n, f :: rest =>
      (f, { outbound := false
            conn := conn
            num := n + 1
            cmd := cmd
            payload := if is_doc_command then none else some f })
        :: inspectFrames is_doc_command conn cmd (n + 1) rest

/-- ProxyLogger.call (middleware.rs lines 75-120).  The fresh Uuid is
an input (cmd).  Returns the logger with its request counter bumped,
the outbound log line, and the result of the inner stage with its
stream wrapped by inspectFrames; an inner error passes through
unchanged. -/
def ProxyLogger.call (pl : ProxyLogger)
    (inner : BytesFrame → Except String (List BytesFrame))
    (cmd : String) (req : BytesFrame) :
    ProxyLogger × ProxyLogLine × Except String (List (BytesFrame × ProxyLogLine)) :=
  let req_num := pl.request_count + 1
  let is_doc_command := req == DOC_REQUEST
  let outLine : ProxyLogLine :=
    { outbound := true
      conn := pl.connection_id
      num := req_num
      cmd := cmd
      payload := some req }
  ({ pl with request_count := req_num },
   outLine,
   match inner req with
   | .error e => .error e
   | .ok frames =>
       .ok (inspectFrames is_doc_command pl.connection_id cmd pl.response_count frames))

/-! ## Helper lemmas -/

theorem drainStream_ok (sinkOk : Nat → Bool) (hall : ∀ n, sinkOk n = true) :
    ∀ (s w : List BytesFrame), drainStream sinkOk w s = (w ++ s, false) := by
  intro s
  induction s with
  | nil => intro w; simp [drainStream]
  | cons f rest ih =>
      intro w
      simp [drainStream, hall, ih (w ++ [f])]

theorem drainStream_no_abort (sinkOk : Nat → Bool) :
    ∀ (s w : List BytesFrame), (drainStream sinkOk w s).2 = false →
      (drainStream sinkOk w s).1 = w ++ s := by
  intro s
  induction s with
  | nil => intro w _; simp [drainStream]
  | cons f rest ih =>
      intro w h2
      by_cases hw : sinkOk w.length = true
      · simp only [drainStream, hw, if_true] at h2 ⊢
        rw [ih (w ++ [f]) h2]
        simp
      · simp [drainStream, hw] at h2

theorem drainStream_fits (sinkOk : Nat → Bool) :
    ∀ (s w : List BytesFrame), ∃ t, (drainStream sinkOk w s).1 ++ t = w ++ s := by
  intro s
  induction s with
  | nil => intro w; exact ⟨[], by simp [drainStream]⟩
  | cons f rest ih =>
      intro w
      by_cases hw : sinkOk w.length = true
      · obtain ⟨t, ht⟩ := ih (w ++ [f])
        refine ⟨t, ?_⟩
        simp only [drainStream, hw, if_true]
        simpa using ht
      · exact ⟨f :: rest, by simp [drainStream, hw]⟩

theorem forwarderTask_ok (sinkOk : Nat → Bool) (hall : ∀ n, sinkOk n = true) :
    ∀ (streams : List (List BytesFrame)) (w : List BytesFrame),
      forwarderTask sinkOk w streams = (w ++ streams.flatten, false) := by
  intro streams
  induction streams with
  | nil => intro w; simp [forwarderTask]
  | cons s rest ih =>
      intro w
      have hd := drainStream_ok sinkOk hall s w
      simp [forwarderTask, hd, ih (w ++ s)]

theorem forwarderTask_fits (sinkOk : Nat → Bool) :
    ∀ (streams : List (List BytesFrame)) (w : List BytesFrame),
      ∃ t, (forwarderTask sinkOk w streams).1 ++ t = w ++ streams.flatten := by
  intro streams
  induction streams with
  | nil => intro w; exact ⟨[], by simp [forwarderTask]⟩
  | cons s rest ih =>
      intro w
      rcases hd : drainStream sinkOk w s with ⟨w2, ab⟩
      cases ab
      · have hw2 : w2 = w ++ s := by
          have h2 := drainStream_no_abort sinkOk s w (by rw [hd])
          rw [hd] at h2
          exact h2
        obtain ⟨t, ht⟩ := ih w2
        refine ⟨t, ?_⟩
        simp only [forwarderTask, hd]
        rw [ht, hw2]
        simp
      · obtain ⟨u, hu⟩ := drainStream_fits sinkOk s w
        rw [hd] at hu
        simp only at hu
        refine ⟨u ++ rest.flatten, ?_⟩
        simp only [forwarderTask, hd]
        rw [← List.append_assoc, hu]
        simp

theorem clientLoop_submit_error (service : PipelineService) (pushOk : Nat → Bool)
    (f : BytesFrame) (msg : String) (pushed : Nat) (rest : List ClientRead)
    (h : service f = .error msg) :
    clientLoop service pushOk (.frame f :: rest) pushed
      = ((clientLoop service pushOk rest pushed).1,
         ⟨.error, "Failed to send command to backend"⟩
           :: (clientLoop service pushOk rest pushed).2.1,
         (clientLoop service pushOk rest pushed).2.2) := by
  simp [clientLoop, h]

/-! ## Claim theorems -/

/-- C1 counterexample: the claim says the forwarder writes every frame
each stream yields; at the concrete input of one enqueued stream
holding PONG and a client sink whose first write fails (proxy.rs lines
67-70), the forwarder returns through the write-failure path having
written nothing, not every frame. -/
theorem forwarder_write_failure_counterexample :
    forwarderTask (fun _ => false) [] [[BytesFrame.SimpleString "PONG"]]
      = ([], true)
  ∧ ([] : List BytesFrame) ≠ [[BytesFrame.SimpleString "PONG"]].flatten := by
  exact ⟨rfl, by decide⟩

/-- C1 amended: the forwarder fully drains each response stream before
receiving the next one — it moves on to the next stream only once the
current one is drained to its end, and aborts everything on a failed
client write; when every client write succeeds, the frames written to
the client are exactly the concatenation of the enqueued streams in
enqueue order, and in general they are a front segment of that
concatenation, so the client-visible frame order equals request
submission order and frames of distinct streams never interleave. -/
theorem forwarder_preserves_submission_order (sinkOk : Nat → Bool)
    (streams : List (List BytesFrame)) (s w w2 : List BytesFrame) :
    ((∀ n, sinkOk n = true) →
       forwarderTask sinkOk [] streams = (streams.flatten, false))
  ∧ (∃ t, (forwarderTask sinkOk [] streams).1 ++ t = streams.flatten)
  ∧ (drainStream sinkOk w s = (w2, false) →
       w2 = w ++ s
     ∧ forwarderTask sinkOk w (s :: streams) = forwarderTask sinkOk w2 streams)
  ∧ (drainStream sinkOk w s = (w2, true) →
       forwarderTask sinkOk w (s :: streams) = (w2, true)) := by
  refine ⟨?_, ?_, ?_, ?_⟩
  · intro hall
    simpa using forwarderTask_ok sinkOk hall streams []
  · simpa using forwarderTask_fits sinkOk streams []
  · intro hd
    refine ⟨?_, ?_⟩
    · have h2 := drainStream_no_abort sinkOk s w (by rw [hd])
      rw [hd] at h2
      exact h2
    · simp [forwarderTask, hd]
  · intro hd
    simp [forwarderTask, hd]

/-- Closed instance of the amended C1: with an always-succeeding sink
two enqueued streams are written completely, in enqueue order. -/
theorem forwarder_preserves_submission_order_witness :
    forwarderTask (fun _ => true) []
        [[BytesFrame.SimpleString "PONG"], [BytesFrame.Integer 1]]
      = ([BytesFrame.SimpleString "PONG", BytesFrame.Integer 1], false) := by
  have h := (forwarder_preserves_submission_order (fun _ => true)
      [[BytesFrame.SimpleString "PONG"], [BytesFrame.Integer 1]] [] [] []).1
      (fun _ => rfl)
  simpa using h

/-- C9 counterexample: the claim says handle_connection waits for the
forwarder to finish draining all already-enqueued streams before
returning; at the concrete input of a service answering PONG, one
client frame, and a client sink whose first write fails, the pushed
streams flatten to PONG yet the client receives nothing. -/
theorem handle_connection_write_failure_counterexample :
    (handle_connection (fun _ => .ok [.SimpleString "PONG"]) (fun _ => false)
        (fun _ => true) [.frame (.SimpleString "PING")]).1 = []
  ∧ ((clientLoop (fun _ => .ok [.SimpleString "PONG"]) (fun _ => true)
        [.frame (.SimpleString "PING")] 0).1.flatten
      = [BytesFrame.SimpleString "PONG"])
  ∧ ([] : List BytesFrame) ≠ [BytesFrame.SimpleString "PONG"] := by
  exact ⟨rfl, rfl, by decide⟩

/-- C9 amended: a submit failure on one frame adds an error log and
leaves the rest of the loop unchanged (subsequent reads are still
processed, the pushed streams and the exit mode being exactly those of
the remaining reads); a client read error makes the loop exit at once,
ignoring later reads; a failed push of a response stream, which
happens when the forwarder has already returned, is logged and exits
the loop; and handle_connection returns only after the forwarder task
has finished: its client output is the flattening of every pushed
stream when every client write succeeds, and in general a front
segment of that flattening. -/
theorem submit_failure_continues_read_error_breaks
    (service : PipelineService) (sinkOk pushOk : Nat → Bool)
    (f : BytesFrame) (msg : String) (pushed : Nat)
    (rest later reads : List ClientRead) (h : service f = .error msg) :
    ((clientLoop service pushOk (.frame f :: rest) pushed).1
        = (clientLoop service pushOk rest pushed).1
      ∧ (clientLoop service pushOk (.frame f :: rest) pushed).2.1
          = ⟨.error, "Failed to send command to backend"⟩
              :: (clientLoop service pushOk rest pushed).2.1
      ∧ (clientLoop service pushOk (.frame f :: rest) pushed).2.2
          = (clientLoop service pushOk rest pushed).2.2)
  ∧ clientLoop service pushOk (.readErr :: later) pushed
      = ([], [⟨.error, "Error reading from client"⟩], .readError)
  ∧ (∀ g stream2, service g = .ok stream2 → pushOk pushed = false →
       clientLoop service pushOk (.frame g :: rest) pushed
         = ([], [⟨.error, "Failed to send response stream to handler"⟩],
            .forwarderGone))
  ∧ ((∀ n, sinkOk n = true) →
       (handle_connection service sinkOk pushOk reads).1
         = (clientLoop service pushOk reads 0).1.flatten)
  ∧ (∃ t, (handle_connection service sinkOk pushOk reads).1 ++ t
         = (clientLoop service pushOk reads 0).1.flatten) := by
  refine ⟨?_, rfl, ?_, ?_, ?_⟩
  · rw [clientLoop_submit_error service pushOk f msg pushed rest h]
    exact ⟨rfl, rfl, rfl⟩
  · intro g stream2 hg hp
    simp [clientLoop, hg, hp]
  · intro hall
    have hft := forwarderTask_ok sinkOk hall (clientLoop service pushOk reads 0).1 []
    calc (handle_connection service sinkOk pushOk reads).1
        = (forwarderTask sinkOk [] (clientLoop service pushOk reads 0).1).1 := rfl
      _ = (clientLoop service pushOk reads 0).1.flatten := by rw [hft]; simp
  · obtain ⟨t, ht⟩ := forwarderTask_fits sinkOk (clientLoop service pushOk reads 0).1 []
    exact ⟨t, by simpa using ht⟩

/-- Closed instance of the amended C9 at a service that rejects every
frame. -/
theorem submit_failure_continues_read_error_breaks_witness :
    (clientLoop (fun _ => .error "boom") (fun _ => true)
        [.frame .Null, .frame (.SimpleString "PING")] 0).1
      = (clientLoop (fun _ => .error "boom") (fun _ => true)
          [.frame (.SimpleString "PING")] 0).1 :=
  (submit_failure_continues_read_error_breaks (fun _ => .error "boom")
    (fun _ => true) (fun _ => true) .Null "boom" 0
    [.frame (.SimpleString "PING")] [] [] rfl).1.1
/-! ## Worker helper lemmas -/

theorem backendTaskStep_of_terminated (s : WorkerState) (e : WorkerEvent)
    (h : s.terminated = true) : backendTaskStep s e = s := by
  simp [backendTaskStep, h]

theorem runWorker_of_terminated (evs : List WorkerEvent) :
    ∀ s : WorkerState, s.terminated = true → runWorker s evs = s := by
  induction evs with
  | nil => intro s _; rfl
  | cons e rest ih =>
      intro s h
      show runWorker (backendTaskStep s e) rest = s
      rw [backendTaskStep_of_terminated s e h]
      exact ih s h

theorem backendTaskStep_liveInv (s : WorkerState) (e : WorkerEvent)
    (h : s.terminated = true → s.backend_running = false) :
    (backendTaskStep s e).terminated = true →
      (backendTaskStep s e).backend_running = false := by
  by_cases ht : s.terminated = true
  · rw [backendTaskStep_of_terminated s e ht]; exact h
  · cases e <;>
      simp only [backendTaskStep, ht, Bool.false_eq_true, if_false, terminateWorker] <;>
      intro hh <;>
      (try split at hh) <;>
      (try split at hh) <;>
      simp_all

theorem runWorker_liveInv (evs : List WorkerEvent) :
    ∀ s : WorkerState, (s.terminated = true → s.backend_running = false) →
      (runWorker s evs).terminated = true →
        (runWorker s evs).backend_running = false := by
  induction evs with
  | nil => intro s h; exact h
  | cons e rest ih =>
      intro s h
      exact ih (backendTaskStep s e) (backendTaskStep_liveInv s e h)

theorem runWorker_delivers_to_current (c : Nat) (frames : List BytesFrame) :
    ∀ s : WorkerState, s.terminated = false → s.current_response_sender = some c →
      (runWorker s (frames.map fun g => WorkerEvent.backendFrame g true)).delivered
        = s.delivered ++ frames.map fun g => (c, g) := by
  induction frames with
  | nil => intro s _ _; simp [runWorker]
  | cons g rest ih =>
      intro s hterm hcur
      have hstep : backendTaskStep s (.backendFrame g true)
          = { s with delivered := s.delivered ++ [(c, g)] } := by
        simp [backendTaskStep, hterm, hcur]
      show (runWorker (backendTaskStep s (.backendFrame g true))
              (rest.map fun g => WorkerEvent.backendFrame g true)).delivered = _
      rw [hstep, ih { s with delivered := s.delivered ++ [(c, g)] } hterm hcur]
      simp

/-- C2: a step of the worker loop never leaves more than one response
channel held (the single Option-typed current_response_sender) and
receiving a new request replaces the current delivery channel with the
channel of that request, superseding any previous one. -/
theorem worker_single_delivery_channel (s : WorkerState) (e : WorkerEvent)
    (f : BytesFrame) (c : Nat) (ok : Bool) (h : s.terminated = false) :
    activeChannels (backendTaskStep s e) ≤ 1
  ∧ (backendTaskStep s (.recvRequest f c ok)).current_response_sender = some c := by
  constructor
  · cases hc : (backendTaskStep s e).current_response_sender <;>
      simp [activeChannels, hc]
  · cases ok <;> simp [backendTaskStep, h, terminateWorker]

/-- Closed instance of C2 at the initial worker state. -/
theorem worker_single_delivery_channel_witness :
    activeChannels (backendTaskStep initWorker .queueClosed) ≤ 1
  ∧ (backendTaskStep initWorker
      (.recvRequest (.SimpleString "PING") 7 true)).current_response_sender = some 7 :=
  worker_single_delivery_channel initWorker .queueClosed
    (.SimpleString "PING") 7 true (by decide)

/-- C3: when a new request is received (request N+1) its frame is
written to the backend and its channel becomes current, and every frame
the backend emits from then on is delivered to that new channel: the
delivery log grows only with pairs tagged by the new channel, never by
the superseded stream N channel. -/
theorem late_frames_delivered_to_new_stream (s : WorkerState) (f : BytesFrame)
    (c : Nat) (frames : List BytesFrame) (h : s.terminated = false) :
    (backendTaskStep s (.recvRequest f c true)).backendWritten
        = s.backendWritten ++ [f]
  ∧ (backendTaskStep s (.recvRequest f c true)).delivered = s.delivered
  ∧ (runWorker (backendTaskStep s (.recvRequest f c true))
        (frames.map fun g => WorkerEvent.backendFrame g true)).delivered
      = s.delivered ++ frames.map fun g => (c, g) := by
  have hstep : backendTaskStep s (.recvRequest f c true)
      = { s with current_response_sender := some c
                 backendWritten := s.backendWritten ++ [f] } := by
    simp [backendTaskStep, h]
  refine ⟨by rw [hstep], by rw [hstep], ?_⟩
  rw [hstep]
  exact runWorker_delivers_to_current c frames _ h rfl

/-- Closed instance of C3: a second request on a fresh worker captures
the frames the backend emits afterwards. -/
theorem late_frames_delivered_to_new_stream_witness :
    (runWorker (backendTaskStep initWorker
        (.recvRequest (.SimpleString "PING") 2 true))
        ([BytesFrame.SimpleString "PONG"].map fun g => WorkerEvent.backendFrame g true)).delivered
      = [(2, BytesFrame.SimpleString "PONG")] :=
  (late_frames_delivered_to_new_stream initWorker (.SimpleString "PING") 2
    [.SimpleString "PONG"] (by decide)).2.2

/-- C4: once the worker loop has exited, for any reason, the liveness
flag backend_running is false, poll_ready on the handle returns the
fatal error instead of ready, and call on the same handle fails
immediately, whatever the fill level of the request queue, because the
queue receiver is gone. -/
theorem worker_termination_fails_fast (evs : List WorkerEvent) (queued : Nat)
    (f : BytesFrame) (h : (runWorker initWorker evs).terminated = true) :
    (runWorker initWorker evs).backend_running = false
  ∧ poll_ready (runWorker initWorker evs).backend_running
      = .error "Backend task has died"
  ∧ call (queueOfWorker (runWorker initWorker evs) queued) f
      = .failed "Failed to send request to handler" := by
  have hrun : (runWorker initWorker evs).backend_running = false :=
    runWorker_liveInv evs initWorker (by intro hh; simp [initWorker] at hh) h
  refine ⟨hrun, ?_, ?_⟩
  · simp [poll_ready, hrun]
  · simp [call, mpscSend, queueOfWorker, h]

/-- Closed instance of C4: the worker that saw its request queue close
rejects poll_ready and call even with a full queue. -/
theorem worker_termination_fails_fast_witness :
    poll_ready (runWorker initWorker [.queueClosed]).backend_running
      = .error "Backend task has died"
  ∧ call (queueOfWorker (runWorker initWorker [.queueClosed])
        MAX_OUTSTANDING_REQUEST_MESSAGES) .Null
      = .failed "Failed to send request to handler" :=
  ⟨(worker_termination_fails_fast [.queueClosed] MAX_OUTSTANDING_REQUEST_MESSAGES
      .Null (by decide)).2.1,
   (worker_termination_fails_fast [.queueClosed] MAX_OUTSTANDING_REQUEST_MESSAGES
      .Null (by decide)).2.2⟩

/-- C5: call errors exactly when the receiving end of the inbound
request queue has been dropped; a full queue with a live receiver
suspends the caller inside send().await instead of erroring; and a
successful call returns a response stream backed by a fresh bounded
channel of the fixed capacity 100. -/
theorem submit_error_iff_receiver_dropped (q : MpscSendState) (req : BytesFrame) :
    ((∃ m, call q req = .failed m) ↔ q.receiverDropped = true)
  ∧ (q.receiverDropped = false → ¬ q.queued < q.capacity →
       call q req = .suspendedOnQueue)
  ∧ (q.receiverDropped = false → q.queued < q.capacity →
       call q req = .stream MAX_OUTSTANDING_RESPONSE_STREAM_MESSAGES
     ∧ MAX_OUTSTANDING_RESPONSE_STREAM_MESSAGES = 100) := by
  refine ⟨⟨?_, ?_⟩, ?_, ?_⟩
  · rintro ⟨m, hm⟩
    by_contra hd
    rw [Bool.not_eq_true] at hd
    rcases Nat.lt_or_ge q.queued q.capacity with hlt | hge
    · simp [call, mpscSend, hd, hlt] at hm
    · simp [call, mpscSend, hd, Nat.not_lt.mpr hge] at hm
  · intro hd
    exact ⟨"Failed to send request to handler", by simp [call, mpscSend, hd]⟩
  · intro hd hfull
    simp [call, mpscSend, hd, hfull]
  · intro hd hroom
    exact ⟨by simp [call, mpscSend, hd, hroom], rfl⟩

/-- Closed instance of C5: a dropped receiver fails the call, a full
live queue suspends it, a live queue with room yields the capacity-100
stream. -/
theorem submit_error_iff_receiver_dropped_witness :
    call ⟨100, 0, true⟩ .Null = .failed "Failed to send request to handler"
  ∧ call ⟨100, 100, false⟩ .Null = .suspendedOnQueue
  ∧ call ⟨100, 0, false⟩ .Null = .stream 100 := by
  refine ⟨?_, ?_, ?_⟩
  · have h := (submit_error_iff_receiver_dropped ⟨100, 0, true⟩ .Null).1.2 rfl
    obtain ⟨m, hm⟩ := h
    cases hm; rfl
  · exact (submit_error_iff_receiver_dropped ⟨100, 100, false⟩ .Null).2.1 rfl
      (by decide)
  · exact ((submit_error_iff_receiver_dropped ⟨100, 0, false⟩ .Null).2.2 rfl
      (by decide)).1

/-- C6 counterexample: the claim says a stray backend frame is logged
as a warning; at the concrete input of a fresh worker (no current
delivery channel) receiving a frame, the single line the code emits is
at error level, not warn level. -/
theorem stray_frame_log_level_counterexample :
    ((backendTaskStep initWorker (.backendFrame .Null true)).logs.map LogEvent.level
      = [LogLevel.error])
  ∧ LogLevel.error ≠ LogLevel.warn := by
  exact ⟨rfl, by decide⟩

/-- C6 amended: when the worker receives a backend frame with a current
delivery channel present, the frame is forwarded to that channel; a
closed receiver clears the current channel without terminating the
worker, and a subsequent request still succeeds, its backend frames
being delivered to the new channel; with no current channel the frame
is dropped and an error-level line (not a warning) is logged, and the
worker neither terminates nor changes its liveness flag. -/
theorem stray_frame_logged_and_dropped (s : WorkerState) (f g h2 : BytesFrame)
    (c c2 : Nat) (h : s.terminated = false) :
    (s.current_response_sender = some c →
       backendTaskStep s (.backendFrame f true)
         = { s with delivered := s.delivered ++ [(c, f)] })
  ∧ (s.current_response_sender = some c →
       (backendTaskStep s (.backendFrame f false)).current_response_sender = none
     ∧ (backendTaskStep s (.backendFrame f false)).terminated = false
     ∧ (backendTaskStep s (.backendFrame f false)).delivered = s.delivered
     ∧ (backendTaskStep
          (backendTaskStep (backendTaskStep s (.backendFrame f false))
            (.recvRequest g c2 true))
          (.backendFrame h2 true)).delivered = s.delivered ++ [(c2, h2)])
  ∧ (s.current_response_sender = none →
       (backendTaskStep s (.backendFrame f true)).logs
         = s.logs ++ [⟨.error, "Response received without a known request to associate"⟩]
     ∧ (backendTaskStep s (.backendFrame f true)).dropped = s.dropped ++ [f]
     ∧ (backendTaskStep s (.backendFrame f true)).terminated = false
     ∧ (backendTaskStep s (.backendFrame f true)).backend_running
         = s.backend_running) := by
  refine ⟨?_, ?_, ?_⟩
  · intro hc
    simp [backendTaskStep, h, hc]
  · intro hc
    have hclr : backendTaskStep s (.backendFrame f false)
        = { s with current_response_sender := none } := by
      simp [backendTaskStep, h, hc]
    have hreq : backendTaskStep { s with current_response_sender := none }
        (.recvRequest g c2 true)
        = { s with current_response_sender := some c2
                   backendWritten := s.backendWritten ++ [g] } := by
      simp [backendTaskStep, h]
    rw [hclr, hreq]
    refine ⟨rfl, h, rfl, ?_⟩
    simp [backendTaskStep, h]
  · intro hc
    simp [backendTaskStep, h, hc]

/-- Closed instance of the amended C6 on a fresh worker. -/
theorem stray_frame_logged_and_dropped_witness :
    (backendTaskStep initWorker (.backendFrame (.SimpleString "PONG") true)).dropped
      = [BytesFrame.SimpleString "PONG"] :=
  ((stray_frame_logged_and_dropped initWorker (.SimpleString "PONG") .Null .Null 0 0
      (by decide)).2.2 rfl).2.1

/-- C10: a request whose write to the backend fails leaves the
channel of that request installed as current while the worker terminates with
the liveness flag false; the frame is not recorded as written, the
worker takes no further steps, and no frame is ever delivered to that
channel, so the response stream the caller already holds ends after
yielding zero frames (its element type carries only frames, never an
error value). -/
theorem write_failure_ends_stream_empty (s : WorkerState) (f : BytesFrame)
    (c : Nat) (evs : List WorkerEvent) (h : s.terminated = false)
    (hc : ((s.delivered.map Prod.fst).contains c) = false) :
    (backendTaskStep s (.recvRequest f c false)).current_response_sender = some c
  ∧ (backendTaskStep s (.recvRequest f c false)).terminated = true
  ∧ (backendTaskStep s (.recvRequest f c false)).backend_running = false
  ∧ (backendTaskStep s (.recvRequest f c false)).backendWritten = s.backendWritten
  ∧ runWorker (backendTaskStep s (.recvRequest f c false)) evs
      = backendTaskStep s (.recvRequest f c false)
  ∧ (((runWorker (backendTaskStep s (.recvRequest f c false)) evs).delivered.map
        Prod.fst).contains c) = false := by
  have hstep : backendTaskStep s (.recvRequest f c false)
      = { s with current_response_sender := some c
                 backend_running := false
                 terminated := true
                 logs := s.logs ++ [⟨.error, "Failed to send request to target"⟩] } := by
    simp [backendTaskStep, h, terminateWorker]
  have habs : runWorker (backendTaskStep s (.recvRequest f c false)) evs
      = backendTaskStep s (.recvRequest f c false) := by
    apply runWorker_of_terminated
    rw [hstep]
  refine ⟨by rw [hstep], by rw [hstep], by rw [hstep], by rw [hstep], habs, ?_⟩
  rw [habs, hstep]
  exact hc

/-- Closed instance of C10 on a fresh worker with a pending backend
frame event after the failed write. -/
theorem write_failure_ends_stream_empty_witness :
    (((runWorker (backendTaskStep initWorker (.recvRequest .Null 3 false))
        [.backendFrame (.SimpleString "PONG") true]).delivered.map
          Prod.fst).contains 3) = false :=
  (write_failure_ends_stream_empty initWorker .Null 3
    [.backendFrame (.SimpleString "PONG") true] (by decide) (by decide)).2.2.2.2.2

/-! ## Middleware helper lemmas -/

theorem inspectFrames_map_fst (d : Bool) (conn cmd : String) :
    ∀ (n : Nat) (frames : List BytesFrame),
      (inspectFrames d conn cmd n frames).map Prod.fst = frames := by
  intro n frames
  induction frames generalizing n with
  | nil => simp [inspectFrames]
  | cons f rest ih => simp [inspectFrames, ih]

theorem inspectFrames_nums_independent_of_doc (conn cmd : String) :
    ∀ (n : Nat) (frames : List BytesFrame),
      ((inspectFrames true conn cmd n frames).map fun p => p.2.num)
        = ((inspectFrames false conn cmd n frames).map fun p => p.2.num) := by
  intro n frames
  induction frames generalizing n with
  | nil => simp [inspectFrames]
  | cons f rest ih => simp [inspectFrames, ih]

theorem inspectFrames_doc_lines_payload_free (conn cmd : String) :
    ∀ (n : Nat) (frames frames2 : List BytesFrame),
      frames.length = frames2.length →
      ((inspectFrames true conn cmd n frames).map Prod.snd
        = (inspectFrames true conn cmd n frames2).map Prod.snd) := by
  intro n frames
  induction frames generalizing n with
  | nil =>
      intro frames2 hlen
      cases frames2 with
      | nil => rfl
      | cons g rest2 => simp at hlen
  | cons f rest ih =>
      intro frames2 hlen
      cases frames2 with
      | nil => simp at hlen
      | cons g rest2 =>
          simp only [List.length_cons, Nat.succ.injEq] at hlen
          simp [inspectFrames, ih (n + 1) rest2 hlen]

/-- C7: draining any number of frames from the stream wrapped by
ProxyLogger.call yields exactly the frames of the undecorated inner
stream, in order and unchanged, and produces exactly one log line per
frame actually delivered, none for frames not yet demanded (the stream
is not eagerly consumed). -/
theorem logger_preserves_frames (pl : ProxyLogger)
    (inner : BytesFrame → Except String (List BytesFrame))
    (cmd : String) (req : BytesFrame) (frames : List BytesFrame) (k : Nat)
    (h : inner req = .ok frames) :
    ∃ wrapped,
      (pl.call inner cmd req).2.2 = .ok wrapped
    ∧ wrapped.map Prod.fst = frames
    ∧ (wrapped.take k).map Prod.fst = frames.take k
    ∧ (wrapped.take k).length = min k frames.length := by
  refine ⟨inspectFrames (req == DOC_REQUEST) pl.connection_id cmd pl.response_count
    frames, ?_, ?_, ?_, ?_⟩
  · simp [ProxyLogger.call, h]
  · exact inspectFrames_map_fst _ _ _ _ _
  · rw [List.map_take, inspectFrames_map_fst]
  · have hlen : (inspectFrames (req == DOC_REQUEST) pl.connection_id cmd
        pl.response_count frames).length = frames.length := by
      have := congrArg List.length
        (inspectFrames_map_fst (req == DOC_REQUEST) pl.connection_id cmd
          pl.response_count frames)
      simpa using this
    rw [List.length_take, hlen]

/-- Closed instance of C7 with a one-frame inner stream. -/
theorem logger_preserves_frames_witness :
    ∃ wrapped,
      (ProxyLogger.call ⟨"c1", 0, 0⟩ (fun _ => .ok [.SimpleString "PONG"]) "id"
        (.SimpleString "PING")).2.2 = .ok wrapped
    ∧ wrapped.map Prod.fst = [BytesFrame.SimpleString "PONG"]
    ∧ (wrapped.take 1).map Prod.fst = [BytesFrame.SimpleString "PONG"].take 1
    ∧ (wrapped.take 1).length = min 1 [BytesFrame.SimpleString "PONG"].length :=
  logger_preserves_frames ⟨"c1", 0, 0⟩ (fun _ => .ok [.SimpleString "PONG"]) "id"
    (.SimpleString "PING") [.SimpleString "PONG"] 1 rfl

theorem inspectFrames_doc_payload_none (conn cmd : String) :
    ∀ (n : Nat) (frames : List BytesFrame) (p : BytesFrame × ProxyLogLine),
      p ∈ inspectFrames true conn cmd n frames → p.2.payload = none := by
  intro n frames
  induction frames generalizing n with
  | nil => intro p hp; simp [inspectFrames] at hp
  | cons f rest ih =>
      intro p hp
      simp only [inspectFrames, List.mem_cons] at hp
      rcases hp with hp | hp
      · subst hp; rfl
      · exact ih (n + 1) p hp

/-- C8: submitting the introspection-document request takes the
placeholder branch of ProxyLogger.call, every inbound log line it
produces carries the placeholder instead of the payload (so the log
output is identical for any two response streams of the same length,
whatever their contents), while the response counter values logged are
exactly those of an ordinary command. -/
theorem doc_request_payload_suppressed (pl : ProxyLogger)
    (inner : BytesFrame → Except String (List BytesFrame))
    (cmd conn : String) (n : Nat) (frames frames2 : List BytesFrame)
    (h : frames.length = frames2.length) :
    ((ProxyLogger.call pl inner cmd DOC_REQUEST).2.2
       = match inner DOC_REQUEST with
         | .error e => .error e
         | .ok fs => .ok (inspectFrames true pl.connection_id cmd
             pl.response_count fs))
  ∧ (∀ p ∈ inspectFrames true conn cmd n frames, p.2.payload = none)
  ∧ ((inspectFrames true conn cmd n frames).map Prod.snd
       = (inspectFrames true conn cmd n frames2).map Prod.snd)
  ∧ ((inspectFrames true conn cmd n frames).map fun p => p.2.num)
       = ((inspectFrames false conn cmd n frames).map fun p => p.2.num) := by
  refine ⟨?_, ?_, ?_, ?_⟩
  · have hdoc : (DOC_REQUEST == DOC_REQUEST) = true := by decide
    simp only [ProxyLogger.call, hdoc]
  · exact fun p hp => inspectFrames_doc_payload_none conn cmd n frames p hp
  · exact inspectFrames_doc_lines_payload_free conn cmd n frames frames2 h
  · exact inspectFrames_nums_independent_of_doc conn cmd n frames

/-- Closed instance of C8: two different single-frame responses to the
introspection-document request produce identical log lines. -/
theorem doc_request_payload_suppressed_witness :
    (inspectFrames true "c1" "id" 0 [.BulkString "secret"]).map Prod.snd
      = (inspectFrames true "c1" "id" 0 [.Null]).map Prod.snd :=
  (doc_request_payload_suppressed ⟨"c1", 0, 0⟩ (fun _ => .ok []) "id" "c1" 0
    [.BulkString "secret"] [.Null] rfl).2.2.1
